import Mathlib

/-!
Verification of the RFGhost core: a shallow embedding of
`src/anomaly_engine.py` (anomaly detection engine) and
`src/rf_interface.py` (CC1101 transceiver interface), with theorems
settling the specification claims about them.

Numeric conventions: Python ints/floats that the code only adds,
subtracts, multiplies, divides and compares are modelled as exact
rationals (`ℚ`); Python's integer floor division `//` is `Int.fdiv`;
Shannon entropy (which needs `log2`) is modelled over `ℝ`.
A Python dict field access `signal["k"]` that can raise `KeyError` is
modelled by matching on an `Option` field: `none` means the key is
absent and the access yields `Except.error ()`.
-/

namespace RFGhost

/-- The `AnomalyType` enum from `anomaly_engine.py`. -/
inductive AnomalyType where
  | ghost_echo
  | void_pulse
  | static_burst
  | freq_shift
  | pattern
deriving DecidableEq, Repr

/-- The `AnomalyThresholds` dataclass from `anomaly_engine.py`. -/
structure AnomalyThresholds where
  rssi_high : ℚ
  rssi_low : ℚ
  entropy_threshold : ℚ
  duration_threshold : ℚ
  pattern_threshold : ℚ
deriving DecidableEq

/-- The default thresholds: `rssi_high=-50, rssi_low=-90,
entropy_threshold=0.8, duration_threshold=2.0, pattern_threshold=0.7`. -/
def defaultThresholds : AnomalyThresholds :=
  ⟨-50, -90, 8/10, 2, 7/10⟩

/-- A signal-metrics dictionary as consumed by the engine's detectors.
Only the keys the detectors ever read are modelled; an `Option` value of
`none` models an absent key (access raises `KeyError`). -/
structure Signal where
  rssi : Option ℚ
  entropy : Option ℚ
  frequency : Option ℚ
  pattern_match : Option ℚ
  duration : Option ℚ
deriving DecidableEq

/-- An anomaly dictionary `{"type": ..., "confidence": ..., "details": ...}`
as built by the detectors. -/
structure Anomaly where
  type : AnomalyType
  confidence : ℚ
  details : List (String × ℚ)
deriving DecidableEq

/-- Model of `AnomalyEngine._calculate_signal_strength`:
`max(0, min(1, (rssi + 120) / 90))`. -/
def calculate_signal_strength (rssi : ℚ) : ℚ :=
  max 0 (min 1 ((rssi + 120) / 90))

/-- Model of `AnomalyEngine._detect_ghost_echo`.  Python short-circuit `and` is kept:
`signal["entropy"]` is only read when the RSSI comparison succeeds, and
`signal["frequency"]` only when the whole condition holds. -/
def detect_ghost_echo (th : AnomalyThresholds) (hist : List Signal)
    (signal : Signal) : Except Unit (Option Anomaly) :=
  match signal.rssi with
  | none => .error ()
  | some r =>
    if th.rssi_high < r then
      match signal.entropy with
      | none => .error ()
      | some e =>
        if th.entropy_threshold < e then
          match signal.frequency with
          | none => .error ()
          | some f =>
            .ok (some ⟨.ghost_echo, calculate_signal_strength r,
              [("rssi", r), ("entropy", e), ("frequency", f)]⟩)
        else .ok none
    else .ok none

/-- Model of `AnomalyEngine._detect_void_pulse`. -/
def detect_void_pulse (th : AnomalyThresholds) (hist : List Signal)
    (signal : Signal) : Except Unit (Option Anomaly) :=
  match signal.rssi with
  | none => .error ()
  | some r =>
    if r < th.rssi_low then
      match signal.entropy with
      | none => .error ()
      | some e =>
        if th.entropy_threshold < e then
          match signal.frequency with
          | none => .error ()
          | some f =>
            .ok (some ⟨.void_pulse, 1 - calculate_signal_strength r,
              [("rssi", r), ("entropy", e), ("frequency", f)]⟩)
        else .ok none
    else .ok none

/-- Model of `AnomalyEngine._detect_static_burst`.  `prev_signal = self.history[-1]`
is the last history entry (which, since `detect_anomalies` appends the
current record first, is the current record itself). -/
def detect_static_burst (th : AnomalyThresholds) (hist : List Signal)
    (signal : Signal) : Except Unit (Option Anomaly) :=
  if hist.length < 2 then .ok none
  else
    match hist.getLast? with
    | none => .ok none
    | some prev =>
      match signal.rssi, prev.rssi with
      | some r, some pr =>
        if 20 < |r - pr| then
          match signal.entropy with
          | none => .error ()
          | some e =>
            if 9/10 < e then
              match signal.frequency with
              | none => .error ()
              | some f =>
                .ok (some ⟨.static_burst, min 1 (|r - pr| / 40),
                  [("rssi_diff", |r - pr|), ("entropy", e), ("frequency", f)]⟩)
            else .ok none
        else .ok none
      | _, _ => .error ()

/-- Model of `AnomalyEngine._detect_frequency_shift`, threshold `0.1` MHz and
confidence `min(1.0, freq_diff / 1.0)` as written in the source. -/
def detect_frequency_shift (th : AnomalyThresholds) (hist : List Signal)
    (signal : Signal) : Except Unit (Option Anomaly) :=
  if hist.length < 2 then .ok none
  else
    match hist.getLast? with
    | none => .ok none
    | some prev =>
      match signal.frequency, prev.frequency with
      | some f, some pf =>
        if 1/10 < |f - pf| then
          .ok (some ⟨.freq_shift, min 1 (|f - pf| / 1),
            [("freq_diff", |f - pf|), ("old_freq", pf), ("new_freq", f)]⟩)
        else .ok none
      | _, _ => .error ()

/-- Model of `AnomalyEngine._detect_signal_pattern`: the `"pattern_match" in signal`
membership test never raises, so an absent key yields no anomaly. -/
def detect_signal_pattern (th : AnomalyThresholds) (hist : List Signal)
    (signal : Signal) : Except Unit (Option Anomaly) :=
  match signal.pattern_match with
  | none => .ok none
  | some pm =>
    if th.pattern_threshold < pm then
      match signal.frequency with
      | none => .error ()
      | some f =>
        .ok (some ⟨.pattern, pm, [("pattern_score", pm), ("frequency", f)]⟩)
    else .ok none

/-- The type of a detection method as dispatched by `detect_anomalies`. -/
abbrev Detector :=
  AnomalyThresholds → List Signal → Signal → Except Unit (Option Anomaly)

/-- The `detection_methods` list of `detect_anomalies`, in source order. -/
def detectors : List Detector :=
  [detect_ghost_echo, detect_void_pulse, detect_static_burst,
   detect_frequency_shift, detect_signal_pattern]

/-- One iteration of the detector loop: a raised exception is caught and
skipped (`except Exception: logger.error(...)`); a truthy result is
appended to the accumulated anomaly list. -/
def runDetector (acc : List Anomaly) (r : Except Unit (Option Anomaly)) :
    List Anomaly :=
  match r with
  | .ok (some a) => acc ++ [a]
  | .ok none => acc
  | .error _ => acc

/-- The detector loop of `detect_anomalies` over a list of detectors. -/
def runAll (ds : List Detector) (th : AnomalyThresholds)
    (hist : List Signal) (s : Signal) : List Anomaly :=
  ds.foldl (fun acc d => runDetector acc (d th hist s)) []

/-- The capacity `self.history_size = 100`. -/
def history_size : ℕ := 100

/-- The history update at the start of `detect_anomalies`:
`self.history.append(signal)` followed by `self.history.pop(0)` when the
length exceeds `history_size`. -/
def updateHistory (hist : List Signal) (s : Signal) : List Signal :=
  if (hist ++ [s]).length > history_size then (hist ++ [s]).tail
  else hist ++ [s]

/-- The mutable state of an `AnomalyEngine` instance. -/
structure EngineState where
  thresholds : AnomalyThresholds
  history : List Signal

/-- Model of `AnomalyEngine.__init__`: given thresholds and an empty history. -/
def mkEngine (th : AnomalyThresholds) : EngineState := ⟨th, []⟩

/-- Model of `AnomalyEngine.detect_anomalies`: update the history, then run every
detector against the (already appended) history and the current record,
catching and skipping any detector failure. -/
def detect_anomalies (st : EngineState) (s : Signal) :
    EngineState × List Anomaly :=
  (⟨st.thresholds, updateHistory st.history s⟩,
   runAll detectors st.thresholds (updateHistory st.history s) s)

/-- Folding a sequence of records through `detect_anomalies`, keeping the
engine state. -/
def insertAll (st : EngineState) (sigs : List Signal) : EngineState :=
  sigs.foldl (fun st s => (detect_anomalies st s).1) st

/-- The GhostEcho scenario record of the spec:
`{rssi: -40, entropy: 0.9, frequency: 433.92}`. -/
def ghostSig : Signal := ⟨some (-40), some (9/10), some (43392/100), none, none⟩

/-- The anomaly the engine produces for `ghostSig`. -/
def ghostAnomaly : Anomaly :=
  ⟨.ghost_echo, 8/9, [("rssi", -40), ("entropy", 9/10), ("frequency", 43392/100)]⟩

/-- First record of the spec's FrequencyShift scenario: 433.92 MHz. -/
def sFreqA : Signal := ⟨some (-60), some (1/2), some (43392/100), none, none⟩

/-- Second record of the spec's FrequencyShift scenario: 435.50 MHz. -/
def sFreqB : Signal := ⟨some (-60), some (1/2), some (43550/100), none, none⟩

/-- The StaticBurst test record: duration 3 s (> 2.0) and entropy 0.95
(> 0.8), rssi identical to the previous record. -/
def sBurst : Signal := ⟨some (-60), some (19/20), some (43392/100), none, some 3⟩

/-- A malformed record for the detector-isolation scenario: `rssi` present
(and above `rssi_high`, so the ghost echo detector goes on to read the
missing `entropy` key and raises), `entropy` absent, `pattern_match`
present and above `pattern_threshold`. -/
def badSig : Signal := ⟨some (-40), none, some (43392/100), some (9/10), none⟩

/-- The anomaly the signal pattern detector produces for `badSig`. -/
def patternAnomaly : Anomaly :=
  ⟨.pattern, 9/10, [("pattern_score", 9/10), ("frequency", 43392/100)]⟩

/-- CC1101 frequency register addresses (`rf_interface.py`). -/
def CC1101_FREQ2 : ℕ := 0x0D

/-- CC1101 FREQ1 register address. -/
def CC1101_FREQ1 : ℕ := 0x0E

/-- CC1101 FREQ0 register address. -/
def CC1101_FREQ0 : ℕ := 0x0F

/-- Model of `CC1101Interface.get_rssi`: decode the raw RSSI register byte to dBm
with Python floor division (`//`). -/
def get_rssi (raw : ℕ) : ℤ :=
  if 128 ≤ raw then ((raw : ℤ) - 256).fdiv 2 - 74
  else ((raw : ℤ)).fdiv 2 - 74

/-- The decode formula as the spec words it, with exact (non-truncating)
halving; kept separate so it can be compared with `get_rssi`. -/
def decodeRssiExact (raw : ℕ) : ℚ :=
  if 128 ≤ raw then ((raw : ℚ) - 256) / 2 - 74 else (raw : ℚ) / 2 - 74

/-- Model of `CC1101Interface.calculate_signal_quality`:
`0.7 * ((rssi + 120) / 120) + 0.3 * (lqi / 255)`, with no clamping. -/
def calculate_signal_quality (rssi lqi : ℚ) : ℚ :=
  7/10 * ((rssi + 120) / 120) + 3/10 * (lqi / 255)

/-- The three CC1101 frequency bands accepted by `set_frequency`. -/
abbrev inBand (f : ℚ) : Prop :=
  (300 ≤ f ∧ f ≤ 348) ∨ (387 ≤ f ∧ f ≤ 464) ∨ (779 ≤ f ∧ f ≤ 928)

/-- Model of `freq_hz = int(freq_mhz * 1000000)`; `int()` truncates toward zero,
which is the floor for the positive frequencies involved. -/
def freq_hz (f : ℚ) : ℤ := ⌊f * 1000000⌋

/-- Model of `freq_reg = int(freq_hz / (26 * 1000000) * 65536)` — truncation, again
floor for positive operands. -/
def freqRegValue (f : ℚ) : ℤ := ⌊(freq_hz f : ℚ) / 26000000 * 65536⌋

/-- Model of `CC1101Interface._calculate_freq_registers`: split `freq_reg` into
three bytes, most significant first (`>> 16`, `>> 8`, `& 0xFF`). -/
def calculate_freq_registers (f : ℚ) : ℕ × ℕ × ℕ :=
  ((freqRegValue f).toNat / 65536 % 256,
   (freqRegValue f).toNat / 256 % 256,
   (freqRegValue f).toNat % 256)

/-- The register value as the spec words it: `round(freq_hz / (26MHz) *
65536)` — rounding, not truncation; kept separate for comparison. -/
def specFreqRegisterValue (f : ℚ) : ℤ :=
  round ((freq_hz f : ℚ) / 26000000 * 65536)

/-- Model of `CC1101Interface.set_frequency`: validate the band, then write the
three frequency registers (most significant first); on out-of-band input
return `False` without writing anything.  The returned list is the
sequence of `(address, value)` register writes performed. -/
def set_frequency (f : ℚ) : Bool × List (ℕ × ℕ) :=
  if inBand f then
    (true,
     [(CC1101_FREQ2, (calculate_freq_registers f).1),
      (CC1101_FREQ1, (calculate_freq_registers f).2.1),
      (CC1101_FREQ0, (calculate_freq_registers f).2.2)])
  else (false, [])

/-- Model of `CC1101Interface.calculate_entropy`: Shannon entropy over the exact
value counts of the sample list (`value_counts` dict, iterated in first
occurrence order, i.e. `List.dedup`); the loop starts from 0 and
subtracts `p * log2(p)` for each distinct value.  No division by 8 and no
clamping. -/
noncomputable def calculate_entropy (samples : List ℤ) : ℝ :=
  if samples = [] then 0
  else
    (samples.dedup.map (fun v =>
      -(((samples.count v : ℝ) / samples.length) *
        Real.logb 2 ((samples.count v : ℝ) / samples.length)))).sum

/-- Python's `round(x, 2)` (exact on the values considered here, where no
tie-breaking is involved). -/
noncomputable def round2 (x : ℝ) : ℝ := (round (x * 100) : ℝ) / 100

/-- The `entropy` field stored in the `SignalMetrics` built by
`scan_frequency`: `round(self.calculate_entropy(samples), 2)`. -/
noncomputable def scanEntropyField (samples : List ℤ) : ℝ :=
  round2 (calculate_entropy samples)

/-- The `SignalMetrics` dataclass of `rf_interface.py`. -/
structure SignalMetrics where
  rssi : ℚ
  lqi : ℚ
  crc_ok : Bool
  timestamp : ℚ
  frequency : ℚ
  duration : ℚ
  entropy : ℚ
  pattern_match : ℚ
  signal_quality : ℚ
deriving DecidableEq

/-- The module-level `scan_frequency` wrapper: if the driver scan produced
no metrics (`None`), return the default record instead of propagating the
failure; otherwise pass the metrics through (`result.__dict__`).
`now` is the `time.time()` value taken when building the default. -/
def scan_frequency_wrapper (freq now : ℚ) (result : Option SignalMetrics) :
    SignalMetrics :=
  match result with
  | none =>
    { rssi := -120, lqi := 0, crc_ok := false, timestamp := now,
      frequency := freq, duration := 0, entropy := 0, pattern_match := 0,
      signal_quality := 0 }
  | some m => m

lemma insertAll_concat (st : EngineState) (l : List Signal) (s : Signal) :
    insertAll st (l ++ [s]) = (detect_anomalies (insertAll st l) s).1 := by
  rw [insertAll, insertAll, List.foldl_append]
  rfl

lemma detect_anomalies_history (st : EngineState) (s : Signal) :
    (detect_anomalies st s).1.history = updateHistory st.history s := rfl

lemma insertAll_history (th : AnomalyThresholds) (sigs : List Signal) :
    (insertAll (mkEngine th) sigs).history =
      sigs.drop (sigs.length - 100) := by
  induction sigs using List.reverseRecOn with
  | nil => rfl
  | append_singleton l s ih =>
    rw [insertAll_concat, detect_anomalies_history, ih, updateHistory]
    simp only [history_size, List.length_append, List.length_drop,
      List.length_cons, List.length_nil]
    by_cases hc : l.length < 100
    · rw [if_neg (by omega)]
      have h0 : l.length - 100 = 0 := by omega
      have h1 : l.length + 1 - 100 = 0 := by omega
      rw [h0, h1, List.drop_zero, List.drop_zero]
    · rw [if_pos (by omega)]
      rw [List.tail_append_singleton_of_ne_nil
        (List.length_pos.mp (by rw [List.length_drop]; omega))]
      rw [List.tail_drop]
      rw [List.drop_append_of_le_length (by omega)]
      have h2 : l.length - 100 + 1 = l.length + 1 - 100 := by omega
      rw [h2]

/-- Claim C3 (confirmed): after any sequence of `detect_anomalies` calls on
a fresh engine, the history is exactly the most recent
`min(number inserted, 100)` records (oldest evicted first); in particular
after 150 insertions the length is 100 and the oldest retained entry is
the 51st record inserted (index 50). -/
theorem history_capacity_invariant :
    (∀ (th : AnomalyThresholds) (sigs : List Signal),
      (insertAll (mkEngine th) sigs).history =
        sigs.drop (sigs.length - 100) ∧
      (insertAll (mkEngine th) sigs).history.length = min sigs.length 100) ∧
    (∀ (th : AnomalyThresholds) (f : ℕ → Signal),
      (insertAll (mkEngine th) ((List.range 150).map f)).history.length = 100 ∧
      (insertAll (mkEngine th) ((List.range 150).map f)).history.head? =
        some (f 50)) := by
  have key := insertAll_history
  constructor
  · intro th sigs
    refine ⟨key th sigs, ?_⟩
    rw [key th sigs, List.length_drop]
    omega
  · intro th f
    have h := key th ((List.range 150).map f)
    have hlen : ((List.range 150).map f).length = 150 := by simp
    rw [hlen] at h
    constructor
    · rw [h, List.length_drop, hlen]
    · rw [h, List.head?_drop, List.getElem?_map, List.getElem?_range (by norm_num : (50:ℕ) < 150)]
      rfl

lemma updateHistory_getLast? (h : List Signal) (s : Signal) :
    (updateHistory h s).getLast? = some s := by
  rw [updateHistory]
  by_cases hc : (h ++ [s]).length > history_size
  · rw [if_pos hc]
    cases h with
    | nil => simp [history_size] at hc
    | cons x t =>
      rw [List.cons_append, List.tail_cons]
      exact List.getLast?_concat _
  · rw [if_neg hc]
    exact List.getLast?_concat _

lemma runDetector_mem (acc : List Anomaly) (r : Except Unit (Option Anomaly))
    (a : Anomaly) : a ∈ runDetector acc r ↔ a ∈ acc ∨ r = .ok (some a) := by
  cases r with
  | error e => simp [runDetector]
  | ok o =>
    cases o with
    | none => simp [runDetector]
    | some b => simp [runDetector, eq_comm]

/-- Because `detect_anomalies` appends the current record to the history
before the detectors run, `_detect_static_burst` compares the record with
itself (`rssi_diff = 0`) and can never contribute an anomaly. -/
lemma runDetector_static (acc : List Anomaly) (th : AnomalyThresholds)
    (h : List Signal) (s : Signal) :
    runDetector acc (detect_static_burst th (updateHistory h s) s) = acc := by
  unfold detect_static_burst
  by_cases h2 : (updateHistory h s).length < 2
  · rw [if_pos h2]; rfl
  · rw [if_neg h2, updateHistory_getLast?]
    cases hr : s.rssi with
    | none => rfl
    | some r => norm_num [runDetector, hr]

/-- Same self-comparison: `_detect_frequency_shift` always sees
`freq_diff = 0` and can never contribute an anomaly. -/
lemma runDetector_freq (acc : List Anomaly) (th : AnomalyThresholds)
    (h : List Signal) (s : Signal) :
    runDetector acc (detect_frequency_shift th (updateHistory h s) s) = acc := by
  unfold detect_frequency_shift
  by_cases h2 : (updateHistory h s).length < 2
  · rw [if_pos h2]; rfl
  · rw [if_neg h2, updateHistory_getLast?]
    cases hf : s.frequency with
    | none => rfl
    | some f => norm_num [runDetector, hf]

lemma ghost_echo_type (th : AnomalyThresholds) (hist : List Signal)
    (s : Signal) (a : Anomaly)
    (h : detect_ghost_echo th hist s = .ok (some a)) : a.type = .ghost_echo := by
  unfold detect_ghost_echo at h
  repeat' split at h
  all_goals first
    | exact Except.noConfusion h
    | exact Option.noConfusion (Except.ok.inj h)
    | exact (congrArg Anomaly.type (Option.some.inj (Except.ok.inj h))).symm

lemma void_pulse_type (th : AnomalyThresholds) (hist : List Signal)
    (s : Signal) (a : Anomaly)
    (h : detect_void_pulse th hist s = .ok (some a)) : a.type = .void_pulse := by
  unfold detect_void_pulse at h
  repeat' split at h
  all_goals first
    | exact Except.noConfusion h
    | exact Option.noConfusion (Except.ok.inj h)
    | exact (congrArg Anomaly.type (Option.some.inj (Except.ok.inj h))).symm

lemma signal_pattern_type (th : AnomalyThresholds) (hist : List Signal)
    (s : Signal) (a : Anomaly)
    (h : detect_signal_pattern th hist s = .ok (some a)) : a.type = .pattern := by
  unfold detect_signal_pattern at h
  repeat' split at h
  all_goals first
    | exact Except.noConfusion h
    | exact Option.noConfusion (Except.ok.inj h)
    | exact (congrArg Anomaly.type (Option.some.inj (Except.ok.inj h))).symm

/-- The anomalies returned by `detect_anomalies` all come from the ghost
echo, void pulse or signal pattern detectors: the two history-comparing
detectors are neutralised by the self-comparison. -/
lemma mem_detect_anomalies (st : EngineState) (s : Signal) (a : Anomaly) :
    a ∈ (detect_anomalies st s).2 ↔
      detect_ghost_echo st.thresholds (updateHistory st.history s) s = .ok (some a) ∨
      detect_void_pulse st.thresholds (updateHistory st.history s) s = .ok (some a) ∨
      detect_signal_pattern st.thresholds (updateHistory st.history s) s = .ok (some a) := by
  show a ∈ runAll detectors st.thresholds (updateHistory st.history s) s ↔ _
  rw [runAll, detectors]
  rw [List.foldl_cons, List.foldl_cons, List.foldl_cons, List.foldl_cons,
    List.foldl_cons, List.foldl_nil]
  rw [runDetector_freq, runDetector_static]
  rw [runDetector_mem, runDetector_mem, runDetector_mem]
  simp [or_assoc]

lemma ghost_scenario_eval :
    (detect_anomalies (mkEngine defaultThresholds) ghostSig).2 = [ghostAnomaly] := by
  norm_num [detect_anomalies, mkEngine, updateHistory, history_size, runAll,
    detectors, List.foldl_cons, List.foldl_nil, runDetector, detect_ghost_echo,
    detect_void_pulse, detect_static_burst, detect_frequency_shift,
    detect_signal_pattern, ghostSig, defaultThresholds,
    calculate_signal_strength, ghostAnomaly, max_def, min_def]

/-- Claim C1 (amended): `detect_anomalies` never returns a FrequencyShift
anomaly at all.  The record is appended to the history before the detectors
run and `_detect_frequency_shift` reads `history[-1]` as the previous
record, so it always compares the record with itself (`freq_diff = 0`,
never above the source's 0.1 MHz threshold).  The spec's threshold
(1.0 MHz) and confidence (`min(1, freq_diff/10.0)`) also do not match the
source, which writes 0.1 MHz and `min(1.0, freq_diff/1.0)`. -/
theorem freq_shift_never_emitted (st : EngineState) (s : Signal) :
    ∀ a ∈ (detect_anomalies st s).2, a.type ≠ AnomalyType.freq_shift := by
  intro a ha
  rw [mem_detect_anomalies] at ha
  rcases ha with hG | hV | hP
  · rw [ghost_echo_type _ _ _ _ hG]; decide
  · rw [void_pulse_type _ _ _ _ hV]; decide
  · rw [signal_pattern_type _ _ _ _ hP]; decide

theorem freq_shift_never_emitted_witness :
    ghostAnomaly.type ≠ AnomalyType.freq_shift :=
  freq_shift_never_emitted (mkEngine defaultThresholds) ghostSig ghostAnomaly
    (by rw [ghost_scenario_eval]; exact List.mem_singleton.mpr rfl)

/-- Claim C1 counterexample: the spec's own scenario — metrics at
433.92 MHz then 435.50 MHz, a 1.58 MHz (> 1.0 MHz) jump — yields no
anomaly at all on the second call, hence no FrequencyShift anomaly with
confidence 0.158. -/
theorem freq_shift_scenario_refuted :
    (1 : ℚ) < |(43550/100 : ℚ) - 43392/100| ∧
    (detect_anomalies ((detect_anomalies (mkEngine defaultThresholds) sFreqA).1)
      sFreqB).2 = [] := by
  constructor
  · rw [show (43550/100 : ℚ) - 43392/100 = 158/100 by norm_num,
      abs_of_nonneg (by norm_num : (0:ℚ) ≤ 158/100)]
    norm_num
  · norm_num [detect_anomalies, mkEngine, updateHistory, history_size, runAll,
      detectors, List.foldl_cons, List.foldl_nil, runDetector, detect_ghost_echo,
      detect_void_pulse, detect_static_burst, detect_frequency_shift,
      detect_signal_pattern, sFreqA, sFreqB, defaultThresholds]

/-- Claim C4 (amended): `detect_anomalies` never returns a StaticBurst
anomaly at all.  The detector's actual condition is
`abs(rssi - prev.rssi) > 20 and entropy > 0.9` (confidence
`min(1, rssi_diff/40)`) — not the duration/threshold rule of the spec —
and since the record is appended to the history before the detectors run,
`prev = history[-1]` is the record itself, so `rssi_diff` is always 0. -/
theorem static_burst_never_emitted (st : EngineState) (s : Signal) :
    ∀ a ∈ (detect_anomalies st s).2, a.type ≠ AnomalyType.static_burst := by
  intro a ha
  rw [mem_detect_anomalies] at ha
  rcases ha with hG | hV | hP
  · rw [ghost_echo_type _ _ _ _ hG]; decide
  · rw [void_pulse_type _ _ _ _ hV]; decide
  · rw [signal_pattern_type _ _ _ _ hP]; decide

theorem static_burst_never_emitted_witness :
    ghostAnomaly.type ≠ AnomalyType.static_burst :=
  static_burst_never_emitted (mkEngine defaultThresholds) ghostSig ghostAnomaly
    (by rw [ghost_scenario_eval]; exact List.mem_singleton.mpr rfl)

/-- Claim C4 counterexample: a record with duration 3 s >
`duration_threshold = 2.0` and entropy 0.95 > `entropy_threshold = 0.8`
(fed twice, so the history comparison is available) produces no anomaly at
all — in particular no StaticBurst with confidence `min(1, 3/5.0)`. -/
theorem static_burst_condition_refuted :
    (defaultThresholds.duration_threshold < 3 ∧
      defaultThresholds.entropy_threshold < 19/20) ∧
    (detect_anomalies ((detect_anomalies (mkEngine defaultThresholds) sBurst).1)
      sBurst).2 = [] := by
  constructor
  · constructor <;> norm_num [defaultThresholds]
  · norm_num [detect_anomalies, mkEngine, updateHistory, history_size, runAll,
      detectors, List.foldl_cons, List.foldl_nil, runDetector, detect_ghost_echo,
      detect_void_pulse, detect_static_burst, detect_frequency_shift,
      detect_signal_pattern, sBurst, defaultThresholds]

lemma fdiv_two_eq_floor (a : ℤ) : ⌊(a : ℚ) / 2⌋ = a.fdiv 2 := by
  rw [Int.fdiv_eq_ediv _ (by norm_num)]
  rw [show ((2:ℚ)) = ((2:ℕ):ℚ) by norm_num]
  rw [Rat.floor_intCast_div_natCast]
  rfl

/-- Claim C2 (amended): the decode uses floor (integer) halving, the
floor of the spec's exact formula: `dBm = (raw - 256) // 2 - 74` for
`raw >= 128`, else `raw // 2 - 74`.  So raw=128 gives -138 and raw=0
gives -74 as the spec says, but raw=255 gives -75, not -74.5. -/
theorem decode_rssi_floor :
    (∀ raw : ℕ, get_rssi raw = ⌊decodeRssiExact raw⌋) ∧
    get_rssi 128 = -138 ∧ get_rssi 0 = -74 ∧ get_rssi 255 = -75 := by
  refine ⟨?_, by decide, by decide, by decide⟩
  intro raw
  unfold get_rssi decodeRssiExact
  by_cases h : 128 ≤ raw
  · rw [if_pos h, if_pos h]
    rw [show ((raw:ℚ) - 256)/2 - 74 = (((raw:ℤ) - 256 : ℤ) : ℚ)/2 - ((74:ℤ):ℚ) by
      push_cast; ring]
    rw [Int.floor_sub_int, fdiv_two_eq_floor]
  · rw [if_neg h, if_neg h]
    rw [show (raw:ℚ)/2 - 74 = (((raw:ℤ) : ℤ) : ℚ)/2 - ((74:ℤ):ℚ) by
      push_cast; ring]
    rw [Int.floor_sub_int, fdiv_two_eq_floor]

/-- Claim C2 counterexample: raw=255 decodes to -75 under the code's
floor division, not the -74.5 the spec's exact halving would give. -/
theorem decode_rssi_255_refuted :
    get_rssi 255 = -75 ∧ decodeRssiExact 255 = -149/2 ∧
    ((get_rssi 255 : ℚ) ≠ decodeRssiExact 255) := by
  refine ⟨by decide, by norm_num [decodeRssiExact], ?_⟩
  rw [show get_rssi 255 = -75 from by decide]
  norm_num [decodeRssiExact]

/-- Claim C7 (amended): `calculate_signal_quality` is the weighted
combination `0.7 * ((rssi+120)/120) + 0.3 * (lqi/255)` with NO final
clamp; it stays within [0, 1] when the inputs are in range
(`-120 <= rssi <= 0`, `0 <= lqi <= 255`), which is the only sense in
which the spec's "clamped to [0,1]" holds. -/
theorem signal_quality_bounds (rssi lqi : ℚ) (h1 : -120 ≤ rssi)
    (h2 : rssi ≤ 0) (h3 : 0 ≤ lqi) (h4 : lqi ≤ 255) :
    0 ≤ calculate_signal_quality rssi lqi ∧
      calculate_signal_quality rssi lqi ≤ 1 := by
  unfold calculate_signal_quality
  constructor <;> nlinarith

theorem signal_quality_bounds_witness :
    0 ≤ calculate_signal_quality (-60) 128 ∧
      calculate_signal_quality (-60) 128 ≤ 1 :=
  signal_quality_bounds (-60) 128 (by norm_num) (by norm_num)
    (by norm_num) (by norm_num)

/-- Claim C7 counterexample: the combination is not clamped — at the
reachable decoded RSSI of -138 dBm (raw register byte 128) with LQI 0 the
result is -0.105, outside [0, 1]. -/
theorem signal_quality_unclamped_refuted :
    calculate_signal_quality ((get_rssi 128 : ℤ) : ℚ) 0 = -21/200 ∧
    ¬ (0 ≤ calculate_signal_quality ((get_rssi 128 : ℤ) : ℚ) 0) := by
  have h : ((get_rssi 128 : ℤ) : ℚ) = -138 := by
    rw [show get_rssi 128 = -138 from by decide]; norm_num
  rw [h]
  constructor <;> norm_num [calculate_signal_quality]

/-- Claim C8 (amended): for in-band frequencies `set_frequency` succeeds
and writes FREQ2, FREQ1, FREQ0 (most significant byte first) with the
three 8-bit fields of `reg = int(freq_hz / 26MHz * 65536)` — truncation,
not the spec's `round`; the three bytes recombine to `reg`, which fits in
24 bits for every in-band frequency.  Out-of-band frequencies return
failure with no register writes. -/
theorem set_frequency_spec (f : ℚ) :
    (inBand f →
      (set_frequency f).1 = true ∧
      (set_frequency f).2 =
        [(CC1101_FREQ2, (calculate_freq_registers f).1),
         (CC1101_FREQ1, (calculate_freq_registers f).2.1),
         (CC1101_FREQ0, (calculate_freq_registers f).2.2)] ∧
      (calculate_freq_registers f).1 < 256 ∧
      (calculate_freq_registers f).2.1 < 256 ∧
      (calculate_freq_registers f).2.2 < 256 ∧
      (calculate_freq_registers f).1 * 65536 +
          (calculate_freq_registers f).2.1 * 256 +
          (calculate_freq_registers f).2.2 = (freqRegValue f).toNat) ∧
    (¬ inBand f → (set_frequency f).1 = false ∧ (set_frequency f).2 = []) := by
  constructor
  · intro h
    have hb : freqRegValue f ≤ 2339132 := by
      have hf : f ≤ 928 := by
        rcases h with ⟨_, h⟩ | ⟨_, h⟩ | ⟨_, h⟩ <;> linarith
      have h1 : freq_hz f ≤ 928000000 := by
        have hmul : (f * 1000000 : ℚ) ≤ 928000000 := by linarith
        calc freq_hz f = ⌊f * 1000000⌋ := rfl
          _ ≤ ⌊(928000000 : ℚ)⌋ := Int.floor_le_floor hmul
          _ = 928000000 := by norm_num
      have h2 : ((freq_hz f : ℚ)) / 26000000 * 65536 ≤ 2339132 := by
        have hc : ((freq_hz f : ℚ)) ≤ 928000000 := by exact_mod_cast h1
        linarith
      have h3 := Int.floor_le ((freq_hz f : ℚ) / 26000000 * 65536)
      have h4 : ((freqRegValue f : ℤ) : ℚ) ≤ 2339132 := le_trans h3 h2
      exact_mod_cast h4
    have hn : (freqRegValue f).toNat < 16777216 := by omega
    rw [set_frequency, if_pos h]
    refine ⟨rfl, rfl, ?_, ?_, ?_, ?_⟩ <;>
      simp only [calculate_freq_registers] <;> omega
  · intro h
    rw [set_frequency, if_neg h]
    exact ⟨rfl, rfl⟩

theorem set_frequency_spec_witness :
    (set_frequency (43392/100)).1 = true ∧
    ((set_frequency 100).1 = false ∧ (set_frequency 100).2 = []) :=
  ⟨((set_frequency_spec (43392/100)).1 (by norm_num [inBand])).1,
   (set_frequency_spec 100).2 (by norm_num [inBand])⟩

/-- Claim C8 counterexample: at 433.93 MHz (in band) the code's truncated
register value is 1093770 (bytes 16, 176, 138) while the spec's
`round(freq_hz / 26MHz * 65536)` is 1093771 (low byte 139) — the exact
quotient is 1093770.63..., so rounding and truncation disagree. -/
theorem freq_register_rounding_refuted :
    calculate_freq_registers (43393/100) = (16, 176, 138) ∧
    specFreqRegisterValue (43393/100) = 1093771 ∧
    (freqRegValue (43393/100)).toNat % 256 ≠
      (specFreqRegisterValue (43393/100)).toNat % 256 := by
  have hz : freq_hz (43393/100) = 433930000 := by
    rw [freq_hz]; norm_num
  have hr : freqRegValue (43393/100) = 1093770 := by
    rw [freqRegValue, hz]
    rw [show (((433930000:ℤ):ℚ)) / 26000000 * 65536 = 355475456/325 by norm_num]
    rw [Int.floor_eq_iff]
    norm_num
  have hs : specFreqRegisterValue (43393/100) = 1093771 := by
    rw [specFreqRegisterValue, hz, round_eq]
    rw [show (((433930000:ℤ):ℚ)) / 26000000 * 65536 + 1/2 = 710951237/650 by norm_num]
    rw [Int.floor_eq_iff]
    norm_num
  refine ⟨?_, hs, ?_⟩
  · rw [calculate_freq_registers, hr]
    decide
  · rw [hr, hs]
    decide

lemma ghost_echo_char (th : AnomalyThresholds) (hist : List Signal)
    (r e f : ℚ) (pm dur : Option ℚ) (a : Anomaly) :
    detect_ghost_echo th hist ⟨some r, some e, some f, pm, dur⟩ =
        .ok (some a) ↔
      (th.rssi_high < r ∧ th.entropy_threshold < e ∧
        a = ⟨.ghost_echo, calculate_signal_strength r,
          [("rssi", r), ("entropy", e), ("frequency", f)]⟩) := by
  by_cases hr : th.rssi_high < r <;> by_cases he : th.entropy_threshold < e <;>
    simp [detect_ghost_echo, hr, he, eq_comm]

/-- Claim C6 (confirmed): a GhostEcho anomaly is returned exactly when
`rssi > rssi_high` and `entropy > entropy_threshold`, with confidence
`max(0, min(1, (rssi+120)/90))` (normalize over -120..-30, clamped); in
particular, the spec's scenario — default thresholds, record
`{rssi: -40, entropy: 0.9, frequency: 433.92}` on a fresh engine —
returns exactly one anomaly, a GhostEcho of confidence 8/9 = 0.888... . -/
theorem ghost_echo_spec :
    (∀ (th : AnomalyThresholds) (hist0 : List Signal) (r e f : ℚ)
        (pm dur : Option ℚ),
      ((∃ a ∈ (detect_anomalies ⟨th, hist0⟩ ⟨some r, some e, some f, pm, dur⟩).2,
          a.type = AnomalyType.ghost_echo) ↔
        (th.rssi_high < r ∧ th.entropy_threshold < e)) ∧
      (∀ a ∈ (detect_anomalies ⟨th, hist0⟩ ⟨some r, some e, some f, pm, dur⟩).2,
        a.type = AnomalyType.ghost_echo →
          a.confidence = max 0 (min 1 ((r + 120) / 90)))) ∧
    (detect_anomalies (mkEngine defaultThresholds) ghostSig).2 = [ghostAnomaly] ∧
    ghostAnomaly.confidence = 8/9 ∧
    ghostAnomaly.type = AnomalyType.ghost_echo := by
  refine ⟨?_, ghost_scenario_eval, rfl, rfl⟩
  intro th hist0 r e f pm dur
  constructor
  · constructor
    · rintro ⟨a, ha, hty⟩
      rw [mem_detect_anomalies] at ha
      rcases ha with hG | hV | hP
      · rw [ghost_echo_char] at hG
        exact ⟨hG.1, hG.2.1⟩
      · rw [void_pulse_type _ _ _ _ hV] at hty
        exact absurd hty (by decide)
      · rw [signal_pattern_type _ _ _ _ hP] at hty
        exact absurd hty (by decide)
    · rintro ⟨hr, he⟩
      refine ⟨⟨.ghost_echo, calculate_signal_strength r,
        [("rssi", r), ("entropy", e), ("frequency", f)]⟩, ?_, rfl⟩
      rw [mem_detect_anomalies]
      left
      rw [ghost_echo_char]
      exact ⟨hr, he, rfl⟩
  · intro a ha hty
    rw [mem_detect_anomalies] at ha
    rcases ha with hG | hV | hP
    · rw [ghost_echo_char] at hG
      rw [hG.2.2]
      rfl
    · have hv := void_pulse_type _ _ _ _ hV
      rw [hty] at hv
      exact absurd hv (by decide)
    · have hp := signal_pattern_type _ _ _ _ hP
      rw [hty] at hp
      exact absurd hp (by decide)

theorem ghost_echo_spec_witness :
    (∃ a ∈ (detect_anomalies ⟨defaultThresholds, []⟩
        ⟨some (-40), some (9/10), some (43392/100), none, none⟩).2,
      a.type = AnomalyType.ghost_echo) ∧
    ghostAnomaly.confidence = max 0 (min 1 (((-40 : ℚ) + 120) / 90)) :=
  ⟨(ghost_echo_spec.1 defaultThresholds [] (-40) (9/10) (43392/100)
      none none).1.mpr
    ⟨by norm_num [defaultThresholds], by norm_num [defaultThresholds]⟩,
   (ghost_echo_spec.1 defaultThresholds [] (-40) (9/10) (43392/100)
      none none).2 ghostAnomaly
    (by show ghostAnomaly ∈
          (detect_anomalies (mkEngine defaultThresholds) ghostSig).2
        rw [ghost_scenario_eval]
        exact List.mem_singleton.mpr rfl)
    rfl⟩

/-- Claim C9 (confirmed): a detector that raises is caught and skipped —
removing a failing detector from the dispatch list leaves the result of
the detector loop unchanged, so every other detector still runs and its
anomalies are still returned; `detect_anomalies` is total (it returns a
plain list, never propagating the detector's exception).  Concretely, a
record missing the `entropy` key makes the ghost echo detector raise
`KeyError`, yet the signal pattern detector still fires on the same call. -/
theorem detector_isolation :
    (∀ (ds₁ ds₂ : List Detector) (d : Detector) (th : AnomalyThresholds)
        (hist : List Signal) (s : Signal),
      d th hist s = .error () →
      runAll (ds₁ ++ d :: ds₂) th hist s = runAll (ds₁ ++ ds₂) th hist s) ∧
    detect_ghost_echo defaultThresholds (updateHistory [] badSig) badSig =
      .error () ∧
    (detect_anomalies (mkEngine defaultThresholds) badSig).2 =
      [patternAnomaly] := by
  refine ⟨?_, ?_, ?_⟩
  · intro ds₁ ds₂ d th hist s hd
    rw [runAll, runAll, List.foldl_append, List.foldl_append]
    simp only [List.foldl_cons]
    rw [hd]
    rfl
  · norm_num [detect_ghost_echo, badSig, defaultThresholds]
  · norm_num [detect_anomalies, mkEngine, updateHistory, history_size, runAll,
      detectors, List.foldl_cons, List.foldl_nil, runDetector,
      detect_ghost_echo, detect_void_pulse, detect_static_burst,
      detect_frequency_shift, detect_signal_pattern, badSig,
      defaultThresholds, patternAnomaly]

theorem detector_isolation_witness :
    runAll ([detect_void_pulse] ++ detect_ghost_echo ::
        [detect_signal_pattern]) defaultThresholds
        (updateHistory [] badSig) badSig =
      runAll ([detect_void_pulse] ++ [detect_signal_pattern])
        defaultThresholds (updateHistory [] badSig) badSig :=
  detector_isolation.1 [detect_void_pulse] [detect_signal_pattern]
    detect_ghost_echo defaultThresholds (updateHistory [] badSig) badSig
    detector_isolation.2.1

/-- Claim C10 (confirmed): when the driver scan fails (`None`), the
module-level wrapper returns the default metrics record — rssi -120,
lqi 0, crc_ok false, zero duration/entropy/pattern/quality and a fresh
timestamp — instead of propagating the failure; a successful scan's
metrics pass through unchanged, so both cases have the same shape. -/
theorem scan_wrapper_default (freq now : ℚ) (res : Option SignalMetrics) :
    (res = none →
      scan_frequency_wrapper freq now res =
        { rssi := -120, lqi := 0, crc_ok := false, timestamp := now,
          frequency := freq, duration := 0, entropy := 0, pattern_match := 0,
          signal_quality := 0 }) ∧
    (∀ m, res = some m → scan_frequency_wrapper freq now res = m) := by
  constructor
  · rintro rfl; rfl
  · rintro m rfl; rfl

theorem scan_wrapper_default_witness :
    scan_frequency_wrapper (43392/100) 1 none =
      { rssi := -120, lqi := 0, crc_ok := false, timestamp := 1,
        frequency := 43392/100, duration := 0, entropy := 0,
        pattern_match := 0, signal_quality := 0 } :=
  (scan_wrapper_default (43392/100) 1 none).1 rfl

lemma sum_map_neg (l : List ℤ) (g : ℤ → ℝ) :
    (l.map (fun v => -(g v))).sum = -(l.map g).sum := by
  induction l with
  | nil => simp
  | cons a t ih => simp only [List.map_cons, List.sum_cons, ih]; ring

lemma logb_quarter : Real.logb 2 ((1:ℝ)/4) = -2 := by
  rw [show ((1:ℝ)/4) = ((2:ℝ)^(2:ℕ))⁻¹ by norm_num, Real.logb_inv,
    Real.logb_pow, Real.logb_self_eq_one (by norm_num)]
  norm_num

lemma entropy_four_values :
    calculate_entropy [-75, -74, -73, -72] = 2 := by
  have hded : ([-75, -74, -73, -72] : List ℤ).dedup = [-75, -74, -73, -72] := by
    decide
  have hc1 : List.count (-75 : ℤ) [-75, -74, -73, -72] = 1 := by decide
  have hc2 : List.count (-74 : ℤ) [-75, -74, -73, -72] = 1 := by decide
  have hc3 : List.count (-73 : ℤ) [-75, -74, -73, -72] = 1 := by decide
  have hc4 : List.count (-72 : ℤ) [-75, -74, -73, -72] = 1 := by decide
  have hlen : ([-75, -74, -73, -72] : List ℤ).length = 4 := rfl
  rw [calculate_entropy, if_neg (by decide)]
  rw [hded]
  simp only [List.map_cons, List.map_nil, List.sum_cons, List.sum_nil]
  rw [hc1, hc2, hc3, hc4, hlen]
  push_cast
  rw [logb_quarter]
  norm_num

/-- Claim C5 (amended): the entropy stored by `scan_frequency` is the raw
Shannon entropy of the exact sample-value distribution (the interface's
`calculate_entropy`, not the engine's normalized `_calculate_entropy`):
nonnegative, equal to `-sum p(v) * log2 p(v)` over the distinct values,
but neither divided by 8.0 nor clamped — four equally frequent RSSI
values already give entropy 2, outside [0, 1]. -/
theorem entropy_unnormalized :
    (∀ samples : List ℤ, 0 ≤ calculate_entropy samples) ∧
    (∀ samples : List ℤ, samples ≠ [] →
      calculate_entropy samples =
        -∑ v ∈ samples.toFinset,
          ((samples.count v : ℝ) / samples.length) *
            Real.logb 2 ((samples.count v : ℝ) / samples.length)) ∧
    calculate_entropy [-75, -74, -73, -72] = 2 := by
  refine ⟨?_, ?_, entropy_four_values⟩
  · intro samples
    rw [calculate_entropy]
    split
    · exact le_refl 0
    · rename_i hne
      apply List.sum_nonneg
      intro x hx
      rw [List.mem_map] at hx
      obtain ⟨v, hv, rfl⟩ := hx
      have hlen0 : 0 < samples.length := List.length_pos.mpr hne
      have hp0 : 0 ≤ (samples.count v : ℝ) / samples.length := by positivity
      have hp1 : (samples.count v : ℝ) / samples.length ≤ 1 := by
        rw [div_le_one (by exact_mod_cast hlen0)]
        exact_mod_cast List.count_le_length v samples
      have hlb : Real.logb 2 ((samples.count v : ℝ) / samples.length) ≤ 0 :=
        Real.logb_nonpos (by norm_num) hp0 hp1
      have hmul : ((samples.count v : ℝ) / samples.length) *
          Real.logb 2 ((samples.count v : ℝ) / samples.length) ≤ 0 := by
        nlinarith
      exact neg_nonneg.mpr hmul
  · intro samples hne
    rw [calculate_entropy, if_neg hne]
    have hts : samples.dedup.toFinset = samples.toFinset := by
      ext a
      simp [List.mem_dedup]
    have hsum := List.sum_toFinset
      (fun v => ((samples.count v : ℝ) / samples.length) *
        Real.logb 2 ((samples.count v : ℝ) / samples.length))
      (List.nodup_dedup samples)
    rw [hts] at hsum
    rw [sum_map_neg, hsum]

theorem entropy_unnormalized_witness :
    calculate_entropy [-75, -74, -73, -72] =
      -∑ v ∈ ([-75, -74, -73, -72] : List ℤ).toFinset,
        ((List.count v [-75, -74, -73, -72] : ℝ) /
            ([-75, -74, -73, -72] : List ℤ).length) *
          Real.logb 2 ((List.count v [-75, -74, -73, -72] : ℝ) /
            ([-75, -74, -73, -72] : List ℤ).length) :=
  entropy_unnormalized.2.1 [-75, -74, -73, -72] (by decide)

/-- Claim C5 counterexample: the RSSI sample list [-75, -74, -73, -72]
(four decoded dBm values, each occurring once) has stored entropy 2 —
the value is not `min(1, shannon/8)` (which would be 0.25) and lies
outside [0, 1], refuting "entropy always lies in [0,1]". -/
theorem entropy_range_refuted :
    calculate_entropy [-75, -74, -73, -72] = 2 ∧
    scanEntropyField [-75, -74, -73, -72] = 2 ∧
    ¬ (calculate_entropy [-75, -74, -73, -72] ≤ 1) ∧
    min 1 (calculate_entropy [-75, -74, -73, -72] / 8) = 1/4 := by
  have h := entropy_four_values
  refine ⟨h, ?_, by rw [h]; norm_num, ?_⟩
  · rw [scanEntropyField, round2, h]
    rw [show ((2:ℝ) * 100) = ((200:ℤ):ℝ) by norm_num, round_intCast]
    norm_num
  · rw [h]
    rw [min_def]
    norm_num

end RFGhost
